import Mathlib

/-!
Verification of `spconnect` (serial-port console bridge).

A shallow embedding, in Lean 4, of the behaviourally relevant parts of
`spconnect` (`src/unnamed/part_000`, the canonical asynchronous
implementation, and `src/spconnect.c`, the earlier synchronous one):
command-line option parsing, the console input reader `ReadStdin`, the
console restoration routine `RestoreConsole`, the asynchronous pump loop
of `main`, the serial-port configuration of `InitPortAsynch`, and the
`--debug-input` hex echo.  Machine integers are modelled as `Nat`/`Int`
with explicit reductions where the C code can wrap or sign-extend.
-/

set_option autoImplicit false
set_option maxRecDepth 10000

/-! Tweakable constants (part_000 lines 35-38). -/

def BUF_SIZE : Nat := 4096
def WBUF_SIZE : Nat := 1024
def RECORD_SIZE : Nat := 256

/-! Option parsing (part_000 lines 78-84 and 334-396). -/

/-- The function `StrToLower` acts on each byte: bytes in `'A'..'Z'` get 32 added, all
others are untouched (part_000 lines 78-84).  Argument strings are ASCII
byte strings; we model them as Lean `String`s character-wise. -/
def lowerByte (c : Char) : Char :=
  if 'A' ≤ c ∧ c ≤ 'Z' then Char.ofNat (c.toNat + 32) else c

def strToLower (s : String) : String :=
  ⟨s.data.map lowerByte⟩

/-- The test of part_000 line 344 that the first byte of the token is a
dash (only reached on nonempty tokens). -/
def startsWithDash (s : String) : Bool :=
  s.data.head? = some '-'

/-- C `isspace` characters skipped by `atoi`. -/
def isSpaceByte (c : Char) : Bool :=
  c = ' ' ∨ c = '\t' ∨ c = '\n' ∨ c = '\x0b' ∨ c = '\x0c' ∨ c = '\x0d'

def isDigitByte (c : Char) : Bool :=
  '0' ≤ c ∧ c ≤ '9'

/-- Accumulate the value of the leading run of decimal digits. -/
def digitsRun : List Char → Nat → Nat
  | [], acc => acc
  | c :: cs, acc =>
    if isDigitByte c then digitsRun cs (acc * 10 + (c.toNat - 48)) else acc

/-- C `atoi`: skip leading whitespace, an optional single sign, then a run
of decimal digits; a string with no leading digits after the sign yields 0. -/
def atoi (s : String) : Int :=
  match s.data.dropWhile isSpaceByte with
  | '-' :: rest => -(digitsRun rest 0 : Int)
  | '+' :: rest => (digitsRun rest 0 : Int)
  | rest => (digitsRun rest 0 : Int)

/-- Conversion of a C `int` value to a `DWORD` (the assignment
`WriteTimeout = atoi(argv[i])` at part_000 line 383), i.e. reduction
modulo `2^32`. -/
def intToDword (i : Int) : Nat :=
  (i % ((2 : Int) ^ 32)).toNat

/-- The process-wide option globals of part_000 lines 43-48 together with
the port-identifier pointer `sp_s` of `main` (line 335). -/
structure Config where
  localEcho : Bool
  systemCP : Bool
  replaceCR : Bool
  disableVT : Bool
  debugInput : Bool
  writeTimeout : Nat
  port : String
deriving Repr, DecidableEq

def defaultConfig : Config :=
  { localEcho := false, systemCP := false, replaceCR := false,
    disableVT := false, debugInput := false, writeTimeout := 1000, port := "" }

/-- The constant `SHORT_HELP_MSG` (part_000 lines 6-18), appended to argument-error
diagnostics. -/
def SHORT_HELP_MSG : String :=
  "Usage: \x27spconnect <PORT> [OPTIONS]\x27\n" ++
  "e.g.:  \x27spconnect com1 -w 10000\x27\n" ++
  "\n" ++
  "Options:\n" ++
  "  -h      --help               Full documentation.\n" ++
  "  -l      --local-echo         Enable local echo of characters typed.\n" ++
  "  -s      --system-codepage    Use system codepage instead of UTF-8.\n" ++
  "  -r      --replace-cr         Replace input CR (\\r) with newline (\\n).\n" ++
  "  -d      --disable-vt         Disable virtual terminal (VT) codes.\n" ++
  "  -w 100  --write-timeout 100  Serial port write timeout, in ms. Default 1000.\n" ++
  "\n" ++
  "Use Ctrl-F10 to quit.\n"

/-- Modelled from the spec: the compiled-in full documentation text (the
`README` constant from `README.h`, generated from `README.md`; the header
itself is not present under `src/`).  No theorem depends on its content,
only on the fact that `--help` terminates with status 0 printing it. -/
def FULL_HELP : String :=
  "Full documentation."

def noWriteTimeoutMsg : String :=
  "No write timeout specified.\n" ++ SHORT_HELP_MSG

def unknownOptionMsg (arg : String) : String :=
  "Unknown option: " ++ arg ++ "\n" ++ SHORT_HELP_MSG

def noPortMsg : String :=
  "Please specify a serial port. e.g. \x27spconnect com1\x27.\n" ++ SHORT_HELP_MSG

/-- Outcome of argument processing: either the final configuration, or a
process exit with the given status and diagnostic text. -/
inductive ParseOutcome where
  | ok (cfg : Config)
  | exit (status : Nat) (msg : String)
deriving Repr, DecidableEq

/-- The argument loop of `main` (part_000 lines 338-390), one C iteration
per list element; the `-w`/`--write-timeout` branch consumes the following
token (`i++`).  Note `StrToLower` is applied in place before matching, so
the unknown-option diagnostic shows the lowercased token. -/
def parseArgsAux : Config → List String → ParseOutcome
  | cfg, [] => .ok cfg
  | cfg, a :: rest =>
    if a.length < 1 then
      parseArgsAux cfg rest
    else if startsWithDash a = false then
      parseArgsAux { cfg with port := a } rest
    else
      let arg := strToLower a
      if arg = "--local-echo" ∨ arg = "-l" then
        parseArgsAux { cfg with localEcho := true } rest
      else if arg = "--system-codepage" ∨ arg = "-s" then
        parseArgsAux { cfg with systemCP := true } rest
      else if arg = "--replace-cr" ∨ arg = "-r" then
        parseArgsAux { cfg with replaceCR := true } rest
      else if arg = "--disable-vt" ∨ arg = "-d" then
        parseArgsAux { cfg with disableVT := true } rest
      else if arg = "--debug-input" then
        parseArgsAux { cfg with debugInput := true } rest
      else if arg = "--help" ∨ arg = "-h" then
        .exit 0 FULL_HELP
      else if arg = "--write-timeout" ∨ arg = "-w" then
        match rest with
        | [] => .exit 1 noWriteTimeoutMsg
        | n :: rest2 => parseArgsAux { cfg with writeTimeout := intToDword (atoi n) } rest2
      else
        .exit 1 (unknownOptionMsg arg)

/-- Argument processing of `main` including the final missing-port check
(part_000 lines 393-396). -/
def parseArgs (args : List String) : ParseOutcome :=
  match parseArgsAux defaultConfig args with
  | .ok cfg => if cfg.port = "" then .exit 1 noPortMsg else .ok cfg
  | e => e

/-! Serial-port configuration (`InitPortAsynch`, part_000 lines 208-247). -/

def CBR_115200 : Nat := 115200
def NOPARITY : Nat := 0
def ONESTOPBIT : Nat := 0

/-- The fields of the Windows `DCB` that `InitPortAsynch` modifies. -/
structure DCB where
  baudRate : Nat
  byteSize : Nat
  parity : Nat
  stopBits : Nat
deriving Repr, DecidableEq

/-- The settings applied between `GetCommState` and `SetCommState`
(part_000 lines 226-231): the baud rate is the constant `CBR_115200`
irrespective of any command-line input. -/
def initPortAsynchSetState (d : DCB) : DCB :=
  { d with baudRate := CBR_115200, byteSize := 8,
           parity := NOPARITY, stopBits := ONESTOPBIT }

/-! Console input (`ReadStdin`, part_000 lines 253-329). -/

def LEFT_CTRL_PRESSED : Nat := 0x0008
def RIGHT_CTRL_PRESSED : Nat := 0x0004
def VK_F10 : Nat := 0x79

/-- The fields of a Windows `KEY_EVENT_RECORD` that `ReadStdin` reads:
`bKeyDown`, `uChar.UnicodeChar` (a UTF-16 code unit, < 2^16),
`dwControlKeyState` and `wVirtualKeyCode`. -/
structure KeyEventRecord where
  keyDown : Bool
  unicodeChar : Nat
  ctrlKeyState : Nat
  virtualKeyCode : Nat
deriving Repr, DecidableEq

/-- A console `INPUT_RECORD`: a key event, or any other event kind
(mouse, window resize, focus, menu), which `ReadStdin` discards. -/
inductive InputRecord where
  | key (e : KeyEventRecord)
  | other
deriving Repr, DecidableEq

/-- The Ctrl-F10 test of part_000 lines 290-292: a Ctrl modifier bit held
and virtual key `VK_F10`. -/
def isCtrlF10 (e : KeyEventRecord) : Bool :=
  (e.ctrlKeyState &&& (LEFT_CTRL_PRESSED ||| RIGHT_CTRL_PRESSED)) ≠ 0 ∧
  e.virtualKeyCode = VK_F10

/-- The append condition of part_000 line 304: keep the character unless it
is NUL with a nonzero `dwControlKeyState` (a bare modifier press); a NUL
with zero control-key state (a pasted NUL) is kept. -/
def keepChar (c : Nat) (e : KeyEventRecord) : Bool :=
  c ≠ 0 ∨ e.ctrlKeyState = 0

/-- The CR→LF substitution of part_000 lines 299-301. -/
def substCR (replaceCR : Bool) (c : Nat) : Nat :=
  if replaceCR ∧ c = 13 then 10 else c

/-- The event-processing loop of `ReadStdin` (part_000 lines 283-307):
returns `none` when a Ctrl-F10 keydown event is reached (the process exits
there, before any further buffering), otherwise `some` of the accumulated
wide characters in order. -/
def accumulateKeys (replaceCR : Bool) : List InputRecord → Option (List Nat)
  | [] => some []
  | .other :: rest => accumulateKeys replaceCR rest
  | .key e :: rest =>
    if ¬ e.keyDown then
      accumulateKeys replaceCR rest
    else if isCtrlF10 e then
      none
    else
      let c := substCR replaceCR e.unicodeChar
      if keepChar c e then
        (accumulateKeys replaceCR rest).map (c :: ·)
      else
        accumulateKeys replaceCR rest

/-- UTF-8 encoding of a Unicode scalar value (< 0x110000, not a surrogate). -/
def utf8Encode (c : Nat) : List Nat :=
  if c < 0x80 then [c]
  else if c < 0x800 then
    [0xC0 ||| (c >>> 6), 0x80 ||| (c &&& 0x3F)]
  else if c < 0x10000 then
    [0xE0 ||| (c >>> 12), 0x80 ||| ((c >>> 6) &&& 0x3F), 0x80 ||| (c &&& 0x3F)]
  else
    [0xF0 ||| (c >>> 18), 0x80 ||| ((c >>> 12) &&& 0x3F),
     0x80 ||| ((c >>> 6) &&& 0x3F), 0x80 ||| (c &&& 0x3F)]

/-- The conversion `WideCharToMultiByte(CP_UTF8, 0, ...)`: UTF-16 code
units to UTF-8 bytes; a valid surrogate pair becomes one 4-byte sequence,
an unpaired surrogate becomes U+FFFD (the behaviour with `dwFlags = 0`). -/
def utf16ToUtf8 : List Nat → List Nat
  | [] => []
  | [c] =>
    if 0xD800 ≤ c ∧ c ≤ 0xDFFF then utf8Encode 0xFFFD else utf8Encode c
  | c :: c2 :: rest =>
    if 0xD800 ≤ c ∧ c ≤ 0xDBFF then
      if 0xDC00 ≤ c2 ∧ c2 ≤ 0xDFFF then
        utf8Encode (0x10000 + (c - 0xD800) * 0x400 + (c2 - 0xDC00)) ++ utf16ToUtf8 rest
      else
        utf8Encode 0xFFFD ++ utf16ToUtf8 (c2 :: rest)
    else if 0xDC00 ≤ c ∧ c ≤ 0xDFFF then
      utf8Encode 0xFFFD ++ utf16ToUtf8 (c2 :: rest)
    else
      utf8Encode c ++ utf16ToUtf8 (c2 :: rest)

/-- The converted byte image of the escape sequence ESC [21;5~ (the
7-byte C literal at part_000 line 322). -/
def QUIT_SEQ : List Nat := [0x1B, 0x5B, 0x32, 0x31, 0x3B, 0x35, 0x7E]

/-- The VT-mode quit scan exactly as coded (part_000 lines 321-326): the
loop `for (i = 0; i < bytes_stdin - 6; i++)` runs at least once only when
at least 7 bytes were produced, and every iteration evaluates the same
7-byte `memcmp` against offset 0 of the buffer: the index `i` is not
used in the loop body. -/
def vtQuitScanCode (bs : List Nat) : Bool :=
  decide (7 ≤ bs.length) && decide (bs.take 7 = QUIT_SEQ)

/-- The scan the spec describes: the sequence detected at any offset of
the converted batch. -/
def vtQuitScanSpec (bs : List Nat) : Bool :=
  (List.range bs.length).any (fun i => decide ((bs.drop i).take 7 = QUIT_SEQ))

/-- Result of one `ReadStdin` call on a batch of already-read records:
either the process quits (console restored, `exit(0)`), or the call
returns a byte buffer (`[]` for the early `return 0` paths). -/
inductive StdinResult where
  | quit
  | bytes (bs : List Nat)
deriving Repr, DecidableEq

/-- One call of `ReadStdin` on a batch of console records (part_000 lines 283-328),
after the `GetNumberOfConsoleInputEvents`/`ReadConsoleInputW` prologue has
delivered `records` (at most `RECORD_SIZE` of them). -/
def readStdin (replaceCR : Bool) (records : List InputRecord) : StdinResult :=
  match accumulateKeys replaceCR records with
  | none => .quit
  | some ws =>
    if ws.length = 0 then .bytes []
    else
      let bs := utf16ToUtf8 ws
      if vtQuitScanCode bs then .quit else .bytes bs

/-! Console restoration (`RestoreConsole`, part_000 lines 167-182). -/

/-- The four globals saved during initialisation (part_000 lines 89-92),
zero-initialised and written at most once each. -/
structure SavedConsole where
  stdinOriginalMode : Nat
  stdinOriginalCP : Nat
  stdoutOriginalMode : Nat
  stdoutOriginalCP : Nat
deriving Repr, DecidableEq

/-- The observable console state `RestoreConsole` acts on: whether
`GetStdHandle` currently yields a valid handle for each stream, the two
console modes, and the two console codepages (the codepages are process
attributes, set without a handle). -/
structure ConsoleState where
  stdinValid : Bool
  stdoutValid : Bool
  stdinMode : Nat
  stdinCP : Nat
  stdoutMode : Nat
  stdoutCP : Nat
deriving Repr, DecidableEq

/-- The routine `RestoreConsole` (part_000 lines 167-182): each console *mode* is
reset only if its saved value is nonzero and the handle is valid; each
*codepage* is reset whenever its saved value is nonzero (`SetConsoleCP` /
`SetConsoleOutputCP` take no handle, so no validity test guards them). -/
def restoreConsole (sv : SavedConsole) (c : ConsoleState) : ConsoleState :=
  let c1 := if c.stdinValid ∧ sv.stdinOriginalMode ≠ 0 then
              { c with stdinMode := sv.stdinOriginalMode } else c
  let c2 := if sv.stdinOriginalCP ≠ 0 then
              { c1 with stdinCP := sv.stdinOriginalCP } else c1
  let c3 := if c2.stdoutValid ∧ sv.stdoutOriginalMode ≠ 0 then
              { c2 with stdoutMode := sv.stdoutOriginalMode } else c2
  if sv.stdoutOriginalCP ≠ 0 then
    { c3 with stdoutCP := sv.stdoutOriginalCP } else c3

/-! Debug-input hex echo, part_000 lines 500-504. -/

/-- Sign extension of a byte stored in a C `char` when promoted to `int`
for a variadic call: on the target (Windows x86/x64) `char` is signed, so
bytes ≥ 0x80 become negative ints. -/
def charToInt (b : Nat) : Int :=
  if b < 128 then (b : Int) else (b : Int) - 256

/-- Reinterpretation of the promoted `int` argument as the `unsigned int`
that the `%X` conversion consumes. -/
def intToUInt (i : Int) : Nat :=
  (i % ((2 : Int) ^ 32)).toNat

def hexDigitUpper (n : Nat) : Char :=
  if n < 10 then Char.ofNat (48 + n) else Char.ofNat (55 + n)

/-- Minimal-length uppercase hexadecimal digits of `n` (empty for 0); the
fuel argument bounds the digit count and is ample for any `n < 2^32`. -/
def hexDigitsAux : Nat → Nat → String
  | 0, _ => ""
  | _ + 1, 0 => ""
  | fuel + 1, n => hexDigitsAux fuel (n / 16) ++ String.singleton (hexDigitUpper (n % 16))

/-- The conversion of one byte by the format directive: uppercase
hexadecimal of the `unsigned int` value, zero-padded to a MINIMUM width
of 2 (wider values print all their digits). -/
def formatX2 (v : Nat) : String :=
  let ds := hexDigitsAux 16 v
  let ds := if ds.length = 0 then "00" else if ds.length = 1 then "0" ++ ds else ds
  ds

/-- The `--debug-input` echo loop (part_000 lines 500-504): each byte of
the outgoing buffer is printed bracketed through the hex directive of
width 2, where the buffer is a plain (signed) `char` array. -/
def debugEcho (bs : List Nat) : String :=
  String.join (bs.map (fun b => "[" ++ formatX2 (intToUInt (charToInt b)) ++ "]"))

/-! The asynchronous pump loop (`main`, part_000 lines 424-523). -/

/-- What one `WaitForMultipleObjects` round of the loop observes.
`portEvent` corresponds to `rval == 0` with the two
`GetOverlappedResult` polls; `timeout` to `WAIT_TIMEOUT`.  (The abandoned
/ failed outcomes call `ExitWithError` and never reach the stdin poll.) -/
inductive WaitOutcome where
  | portEvent (readComplete : Bool) (bytesRead : Nat) (writeComplete : Bool)
  | timeout
deriving Repr, DecidableEq

/-- Environment of one loop iteration: the wait outcome, and the byte
batch `ReadStdin` would deliver if it were polled. -/
structure IterEnv where
  wait : WaitOutcome
  stdinData : List Nat
deriving Repr, DecidableEq

/-- Observable actions of one loop iteration. -/
structure IterActions where
  polledStdin : Bool
  writeIssued : Option (List Nat)
  busyAfter : Bool
deriving Repr, DecidableEq

/-- The write-busy flag after the completion-handling phase (part_000
lines 473-476): cleared exactly when a write completion is observed. -/
def busyAfterWait (busy : Bool) : WaitOutcome → Bool
  | .portEvent _ _ writeComplete => if writeComplete then false else busy
  | .timeout => busy

/-- One iteration of the `do ... while(1)` pump (part_000 lines 424-523),
restricted to the write-path state: completion handling first, then —
only when `port_write_busy` is false — a single `ReadStdin` poll, and a
single `WriteFile` on the port if the poll produced bytes (lines
491-521). -/
def pumpIter (busy : Bool) (env : IterEnv) : IterActions :=
  let busy1 := busyAfterWait busy env.wait
  if busy1 then
    { polledStdin := false, writeIssued := none, busyAfter := true }
  else if env.stdinData.length > 0 then
    { polledStdin := true, writeIssued := some env.stdinData, busyAfter := true }
  else
    { polledStdin := true, writeIssued := none, busyAfter := false }

/-- The pump over a whole trace of iteration environments, threading the
write-busy flag (initially false, part_000 line 420); returns the actions
of each iteration in order. -/
def pumpRun (busy : Bool) : List IterEnv → List IterActions
  | [] => []
  | env :: rest =>
    let acts := pumpIter busy env
    acts :: pumpRun acts.busyAfter rest

/-- A keydown key event with no modifier state, as produced for a plain
typed or VT-synthesised character. -/
def pressKey (c : Nat) : InputRecord :=
  .key { keyDown := true, unicodeChar := c, ctrlKeyState := 0, virtualKeyCode := 0 }

/-- The dash branch of the argument loop (part_000 lines 347-389) as a
function of the already-lowercased token, used to state that option
matching sees a dash token only through `StrToLower`. -/
def dashCase (cfg : Config) (arg : String) (rest : List String) : ParseOutcome :=
  if arg = "--local-echo" ∨ arg = "-l" then
    parseArgsAux { cfg with localEcho := true } rest
  else if arg = "--system-codepage" ∨ arg = "-s" then
    parseArgsAux { cfg with systemCP := true } rest
  else if arg = "--replace-cr" ∨ arg = "-r" then
    parseArgsAux { cfg with replaceCR := true } rest
  else if arg = "--disable-vt" ∨ arg = "-d" then
    parseArgsAux { cfg with disableVT := true } rest
  else if arg = "--debug-input" then
    parseArgsAux { cfg with debugInput := true } rest
  else if arg = "--help" ∨ arg = "-h" then
    .exit 0 FULL_HELP
  else if arg = "--write-timeout" ∨ arg = "-w" then
    match rest with
    | [] => .exit 1 noWriteTimeoutMsg
    | n :: rest2 => parseArgsAux { cfg with writeTimeout := intToDword (atoi n) } rest2
  else
    .exit 1 (unknownOptionMsg arg)

/-- Whether a wait outcome observes completion of the outstanding port
write (part_000 lines 445-452). -/
def observesWriteComplete : WaitOutcome → Bool
  | .portEvent _ _ writeComplete => writeComplete
  | .timeout => false

/-- Number of port writes issued over a run of the pump. -/
def countWrites (l : List IterActions) : Nat :=
  l.countP (fun a => a.writeIssued.isSome)

/-- Number of write completions observed over a run of the pump. -/
def countCompletions (l : List IterEnv) : Nat :=
  l.countP (fun e => observesWriteComplete e.wait)

/-! Helper lemmas. -/

theorem parseArgsAux_dash (cfg : Config) (t : String) (rest : List String)
    (h : startsWithDash t = true) :
    parseArgsAux cfg (t :: rest) = dashCase cfg (strToLower t) rest := by
  have hne : t.data ≠ [] := by
    intro hd
    simp [startsWithDash, hd] at h
  have hlen : ¬ t.length < 1 := by
    cases hd : t.data with
    | nil => exact absurd hd hne
    | cons c cs => simp [String.length, hd]
  rw [parseArgsAux.eq_def]
  simp only [dashCase, if_neg hlen, h]
  simp only [show (true = false) = False by simp, if_false]

/-! Claim theorems. -/

/-- C1: the Ctrl-F10 keydown check does quit before any buffering, but the
VT escape-sequence check does not fire at every offset: on the batch that
types the byte 0x41 followed by ESC [21;5~, the sequence appears at
offset 1 of the converted output (as `vtQuitScanSpec` attests), yet
`ReadStdin` returns the whole batch instead of quitting, because its scan
loop compares only offset 0.  At offset 0 the quit does happen. -/
theorem readStdin_vt_scan_divergence :
    readStdin false ([0x41, 0x1B, 0x5B, 0x32, 0x31, 0x3B, 0x35, 0x7E].map pressKey) =
      .bytes [0x41, 0x1B, 0x5B, 0x32, 0x31, 0x3B, 0x35, 0x7E] ∧
    vtQuitScanSpec [0x41, 0x1B, 0x5B, 0x32, 0x31, 0x3B, 0x35, 0x7E] = true ∧
    vtQuitScanCode [0x41, 0x1B, 0x5B, 0x32, 0x31, 0x3B, 0x35, 0x7E] = false ∧
    readStdin false (QUIT_SEQ.map pressKey) = .quit ∧
    readStdin false [.key ⟨true, 0, LEFT_CTRL_PRESSED, VK_F10⟩] = .quit := by
  decide

/-- C3: the options `-c` and `--configure-port` are not in the option
table of `main`; processing reaches the unknown-option branch and the
process exits with status 1, and `InitPortAsynch` always applies the
constant baud rate 115200 (with 8 data bits, no parity, one stop bit),
never a user-supplied value. -/
theorem configurePort_option_rejected (cfg : Config) (rest : List String) (d : DCB) :
    parseArgsAux cfg ("-c" :: rest) = .exit 1 (unknownOptionMsg "-c") ∧
    parseArgsAux cfg ("--configure-port" :: rest) =
      .exit 1 (unknownOptionMsg "--configure-port") ∧
    initPortAsynchSetState d =
      { baudRate := CBR_115200, byteSize := 8, parity := NOPARITY, stopBits := ONESTOPBIT } ∧
    parseArgs ["com1", "-c", "9600"] = .exit 1 (unknownOptionMsg "-c") := by
  refine ⟨?_, ?_, rfl, by decide⟩
  · rw [parseArgsAux_dash cfg "-c" rest (by decide)]
    rfl
  · rw [parseArgsAux_dash cfg "--configure-port" rest (by decide)]
    rfl

/-- C5 counterexample: a non-numeric token following `-w` is not a fatal
error; `atoi` yields 0 and parsing succeeds with write timeout 0. -/
theorem writeTimeout_nonNumeric_not_fatal :
    parseArgs ["com1", "-w", "abc"] =
      .ok { defaultConfig with writeTimeout := 0, port := "com1" } ∧
    atoi "abc" = 0 := by
  decide

/-- C5 (amended): `-w`/`--write-timeout` as the last token exits with
status 1 printing the no-write-timeout diagnostic plus the short usage
text; a following token is consumed and parsed with `atoi`, so `-w 500`
sets the write timeout to 500 and a non-numeric follower sets it to 0
without a fatal error. -/
theorem writeTimeout_requires_argument (cfg : Config) :
    parseArgsAux cfg ["-w"] = .exit 1 noWriteTimeoutMsg ∧
    parseArgsAux cfg ["--write-timeout"] = .exit 1 noWriteTimeoutMsg ∧
    parseArgs ["com1", "-w"] = .exit 1 noWriteTimeoutMsg ∧
    noWriteTimeoutMsg = "No write timeout specified.\n" ++ SHORT_HELP_MSG ∧
    parseArgs ["com1", "-w", "500"] =
      .ok { defaultConfig with writeTimeout := 500, port := "com1" } ∧
    parseArgs ["com1", "-w", "abc"] =
      .ok { defaultConfig with writeTimeout := 0, port := "com1" } := by
  refine ⟨?_, ?_, by decide, rfl, by decide, by decide⟩
  · rw [parseArgsAux_dash cfg "-w" [] (by decide)]
    rfl
  · rw [parseArgsAux_dash cfg "--write-timeout" [] (by decide)]
    rfl

/-- C7: the debug-input echo prints 0x41, 0x0A as exactly `[41][0A]`, but
the two-digit format does not hold for bytes at or above 0x80: the buffer
has plain (signed) `char` elements, so such bytes are sign-extended to a
negative `int`, reinterpreted as a large `unsigned int` by the hex
directive, and printed with eight digits — 0x80 prints `[FFFFFF80]`. -/
theorem debugEcho_two_digit_divergence :
    debugEcho [0x41, 0x0A] = "[41][0A]" ∧
    debugEcho [0x80] = "[FFFFFF80]" ∧
    debugEcho [0x80] ≠ "[80]" ∧
    debugEcho [0xFF] = "[FFFFFFFF]" ∧
    debugEcho [0x00] = "[00]" ∧
    debugEcho [0x7F] = "[7F]" := by
  decide

/-- C10: whenever `-w` or `--write-timeout` is followed by a token, that
token is consumed unconditionally (the loop continues after it, so it is
never matched as an option or stored as the port), its value taken by
`atoi`; in particular `com1 -w -l` sets the write timeout to 0 and does
not enable local echo. -/
theorem writeTimeout_consumes_next_token (cfg : Config) (n : String) (rest : List String) :
    parseArgsAux cfg ("-w" :: n :: rest) =
      parseArgsAux { cfg with writeTimeout := intToDword (atoi n) } rest ∧
    parseArgsAux cfg ("--write-timeout" :: n :: rest) =
      parseArgsAux { cfg with writeTimeout := intToDword (atoi n) } rest ∧
    atoi "-l" = 0 ∧
    parseArgs ["com1", "-w", "-l"] =
      .ok { defaultConfig with writeTimeout := 0, port := "com1" } := by
  refine ⟨?_, ?_, by decide, by decide⟩
  · rw [parseArgsAux_dash cfg "-w" (n :: rest) (by decide)]
    rfl
  · rw [parseArgsAux_dash cfg "--write-timeout" (n :: rest) (by decide)]
    rfl

/-- C6 counterexample: the keep/drop condition is the reverse of the
claim.  A NUL character arriving alongside explicit modifier state (left
Ctrl held, virtual key 0x11) is dropped by the code, and a NUL with zero
control-key state (a pasted NUL) is kept. -/
theorem nul_keep_condition_reversed :
    accumulateKeys false [.key ⟨true, 0, LEFT_CTRL_PRESSED, 0x11⟩] = some [] ∧
    accumulateKeys false [.key ⟨true, 0, 0, 0⟩] = some [0] := by
  decide

/-- C6 (amended): for a qualifying keydown event that is not the quit
chord, the (possibly CR-substituted) character is appended unless it is a
NUL accompanied by nonzero control-key state (a bare modifier press); a
NUL with zero control-key state (e.g. a pasted NUL byte) is kept, and a
non-NUL character is always appended. -/
theorem readStdin_append_condition (replaceCR : Bool) (e : KeyEventRecord)
    (rest : List InputRecord) (hkd : e.keyDown = true) (hq : isCtrlF10 e = false) :
    (e.unicodeChar ≠ 0 →
      accumulateKeys replaceCR (.key e :: rest) =
        (accumulateKeys replaceCR rest).map (substCR replaceCR e.unicodeChar :: ·)) ∧
    (e.unicodeChar = 0 → e.ctrlKeyState = 0 →
      accumulateKeys replaceCR (.key e :: rest) =
        (accumulateKeys replaceCR rest).map (0 :: ·)) ∧
    (e.unicodeChar = 0 → e.ctrlKeyState ≠ 0 →
      accumulateKeys replaceCR (.key e :: rest) = accumulateKeys replaceCR rest) := by
  have hstep : accumulateKeys replaceCR (.key e :: rest) =
      (if keepChar (substCR replaceCR e.unicodeChar) e then
        (accumulateKeys replaceCR rest).map (substCR replaceCR e.unicodeChar :: ·)
      else accumulateKeys replaceCR rest) := by
    simp only [accumulateKeys, hkd, hq]
    simp
  have hsub0 : substCR replaceCR 0 = 0 := by simp [substCR]
  refine ⟨?_, ?_, ?_⟩
  · intro hc
    rw [hstep, if_pos]
    simp only [keepChar, decide_eq_true_eq]
    left
    unfold substCR
    split
    · simp
    · simpa using hc
  · intro hc hs
    rw [hstep, hc, hsub0, if_pos]
    simp only [keepChar, decide_eq_true_eq]
    right
    exact hs
  · intro hc hs
    rw [hstep, hc, hsub0, if_neg]
    simp only [keepChar, decide_eq_true_eq]
    push_neg
    exact ⟨rfl, hs⟩

/-- C6 witness: instantiations of the amended theorem at the letter A with
Ctrl held (appended) and at a bare Ctrl press producing NUL (dropped). -/
theorem readStdin_append_condition_witness :
    accumulateKeys false [InputRecord.key ⟨true, 65, 8, 0⟩] =
      (accumulateKeys false []).map (substCR false 65 :: ·) ∧
    accumulateKeys false [InputRecord.key ⟨true, 0, 8, 0⟩] = accumulateKeys false [] :=
  ⟨(readStdin_append_condition false ⟨true, 65, 8, 0⟩ [] rfl (by decide)).1 (by decide),
   (readStdin_append_condition false ⟨true, 0, 8, 0⟩ [] rfl (by decide)).2.2 rfl (by decide)⟩

theorem accumulateKeys_length_le (replaceCR : Bool) (records : List InputRecord) :
    ∀ ws, accumulateKeys replaceCR records = some ws → ws.length ≤ records.length := by
  induction records with
  | nil =>
    intro ws h
    simp only [accumulateKeys, Option.some_inj] at h
    simp [← h]
  | cons r rest ih =>
    intro ws h
    cases r with
    | other =>
      simp only [accumulateKeys] at h
      exact (ih ws h).trans (by simp)
    | key e =>
      simp only [accumulateKeys] at h
      split_ifs at h
      all_goals first
        | (obtain ⟨ws0, hws0, hmap⟩ := Option.map_eq_some'.mp h
           subst hmap
           simpa using ih ws0 hws0)
        | (exact (ih ws h).trans (by simp))
        | simp at h

/-- C8: each event contributes at most one accumulated character, so on a
batch of at most `RECORD_SIZE` records the accumulator holds at most
`RECORD_SIZE` characters, strictly fewer than the `WBUF_SIZE` capacity of
the wide buffer; the static assertion `RECORD_SIZE < WBUF_SIZE` holds, so
every write into the accumulator is in bounds. -/
theorem readStdin_accumulator_bounded (replaceCR : Bool) (records : List InputRecord)
    (ws : List Nat) (hrec : records.length ≤ RECORD_SIZE)
    (hacc : accumulateKeys replaceCR records = some ws) :
    ws.length ≤ RECORD_SIZE ∧ ws.length < WBUF_SIZE ∧ RECORD_SIZE < WBUF_SIZE := by
  have h1 := (accumulateKeys_length_le replaceCR records ws hacc).trans hrec
  refine ⟨h1, ?_, by decide⟩
  have h2 : RECORD_SIZE < WBUF_SIZE := by decide
  omega

/-- C8 witness: the bound applied to a concrete one-record batch. -/
theorem readStdin_accumulator_bounded_witness :
    [(65 : Nat)].length ≤ RECORD_SIZE ∧ [(65 : Nat)].length < WBUF_SIZE ∧
    RECORD_SIZE < WBUF_SIZE :=
  readStdin_accumulator_bounded false [pressKey 65] [65] (by decide) (by decide)

theorem restoreConsole_fields (sv : SavedConsole) (c : ConsoleState) :
    restoreConsole sv c =
      { stdinValid := c.stdinValid, stdoutValid := c.stdoutValid,
        stdinMode := if c.stdinValid ∧ sv.stdinOriginalMode ≠ 0 then
          sv.stdinOriginalMode else c.stdinMode,
        stdinCP := if sv.stdinOriginalCP ≠ 0 then sv.stdinOriginalCP else c.stdinCP,
        stdoutMode := if c.stdoutValid ∧ sv.stdoutOriginalMode ≠ 0 then
          sv.stdoutOriginalMode else c.stdoutMode,
        stdoutCP := if sv.stdoutOriginalCP ≠ 0 then sv.stdoutOriginalCP else c.stdoutCP } := by
  obtain ⟨v1, v2, m1, p1, m2, p2⟩ := c
  simp only [restoreConsole]
  split_ifs <;> simp_all

/-- C9 counterexample: a saved codepage is restored even when the
corresponding handle is invalid.  With an invalid stdin handle and a
captured input codepage 437, `RestoreConsole` still rewrites the input
codepage (the codepage calls take no handle and are guarded only by the
saved value being nonzero), so restoration is not conditional on handle
validity as the claim states. -/
theorem restore_codepage_ignores_handle_validity :
    (restoreConsole ⟨0, 437, 0, 0⟩ ⟨false, false, 7, 65001, 7, 65001⟩).stdinCP = 437 ∧
    restoreConsole ⟨0, 437, 0, 0⟩ ⟨false, false, 7, 65001, 7, 65001⟩ ≠
      ⟨false, false, 7, 65001, 7, 65001⟩ := by
  decide

/-- C9 (amended): `RestoreConsole` is idempotent for every saved state,
including partially-initialised ones, and raises nothing; each saved
console mode is applied only if it was captured (nonzero) and its handle
is valid, while each saved codepage is applied whenever it was captured
(nonzero), with no handle-validity guard. -/
theorem restoreConsole_idempotent (sv : SavedConsole) (c : ConsoleState) :
    restoreConsole sv (restoreConsole sv c) = restoreConsole sv c ∧
    (c.stdinValid ∧ sv.stdinOriginalMode ≠ 0 →
      (restoreConsole sv c).stdinMode = sv.stdinOriginalMode) ∧
    (¬(c.stdinValid ∧ sv.stdinOriginalMode ≠ 0) →
      (restoreConsole sv c).stdinMode = c.stdinMode) ∧
    (c.stdoutValid ∧ sv.stdoutOriginalMode ≠ 0 →
      (restoreConsole sv c).stdoutMode = sv.stdoutOriginalMode) ∧
    (¬(c.stdoutValid ∧ sv.stdoutOriginalMode ≠ 0) →
      (restoreConsole sv c).stdoutMode = c.stdoutMode) ∧
    (sv.stdinOriginalCP ≠ 0 → (restoreConsole sv c).stdinCP = sv.stdinOriginalCP) ∧
    (sv.stdinOriginalCP = 0 → (restoreConsole sv c).stdinCP = c.stdinCP) ∧
    (sv.stdoutOriginalCP ≠ 0 → (restoreConsole sv c).stdoutCP = sv.stdoutOriginalCP) ∧
    (sv.stdoutOriginalCP = 0 → (restoreConsole sv c).stdoutCP = c.stdoutCP) := by
  refine ⟨?_, ?_, ?_, ?_, ?_, ?_, ?_, ?_, ?_⟩
  · rw [restoreConsole_fields sv c, restoreConsole_fields]
    obtain ⟨v1, v2, m1, p1, m2, p2⟩ := c
    simp only
    split_ifs <;> simp_all
  all_goals
    rw [restoreConsole_fields sv c]
    intro h
    simp only
    split_ifs <;> simp_all

/-- C9 witness: the amended theorem applied at a fully captured saved
state over a valid console. -/
theorem restoreConsole_idempotent_witness :
    restoreConsole ⟨3, 437, 5, 850⟩ (restoreConsole ⟨3, 437, 5, 850⟩ ⟨true, true, 7, 65001, 7, 65001⟩) =
      restoreConsole ⟨3, 437, 5, 850⟩ ⟨true, true, 7, 65001, 7, 65001⟩ ∧
    (restoreConsole ⟨3, 437, 5, 850⟩ ⟨true, true, 7, 65001, 7, 65001⟩).stdinMode = 3 ∧
    (restoreConsole ⟨3, 437, 5, 850⟩ ⟨true, true, 7, 65001, 7, 65001⟩).stdinCP = 437 :=
  ⟨(restoreConsole_idempotent ⟨3, 437, 5, 850⟩ ⟨true, true, 7, 65001, 7, 65001⟩).1,
   (restoreConsole_idempotent ⟨3, 437, 5, 850⟩ ⟨true, true, 7, 65001, 7, 65001⟩).2.1
     (by decide),
   (restoreConsole_idempotent ⟨3, 437, 5, 850⟩ ⟨true, true, 7, 65001, 7, 65001⟩).2.2.2.2.2.1
     (by decide)⟩

theorem busyAfterWait_false_of_busy (busy : Bool) (w : WaitOutcome)
    (h1 : busy = true) (h2 : busyAfterWait busy w = false) :
    observesWriteComplete w = true := by
  cases w with
  | portEvent rc br wc => cases wc <;> simp_all [busyAfterWait, observesWriteComplete]
  | timeout => simp_all [busyAfterWait]

theorem pumpRun_cons (busy : Bool) (env : IterEnv) (rest : List IterEnv) :
    pumpRun busy (env :: rest) =
      pumpIter busy env :: pumpRun (pumpIter busy env).busyAfter rest := rfl

/-- Over any trace, the number of writes issued never exceeds the number
of observed completions plus one: a second write is never in flight. -/
theorem pumpRun_writes_le (envs : List IterEnv) :
    ∀ busy : Bool, countWrites (pumpRun busy envs) + (if busy then 1 else 0) ≤
      countCompletions envs + 1 := by
  induction envs with
  | nil =>
    intro busy
    simp only [pumpRun, countWrites, countCompletions, List.countP_nil]
    split <;> omega
  | cons env rest ih =>
    intro busy
    rw [pumpRun_cons]
    simp only [countWrites, countCompletions, List.countP_cons] at *
    have hCC := ih
    cases hb : busyAfterWait busy env.wait with
    | true =>
      have hacts : pumpIter busy env = ⟨false, none, true⟩ := by
        simp [pumpIter, hb]
      have := ih true
      cases busy <;> simp_all [Option.isSome] <;> omega
    | false =>
      cases hd : env.stdinData with
      | nil =>
        have hacts : pumpIter busy env = ⟨true, none, false⟩ := by
          simp [pumpIter, hb, hd]
        have h0 := ih false
        cases busy with
        | false => simp_all [Option.isSome] <;> omega
        | true =>
          have hobs := busyAfterWait_false_of_busy true env.wait rfl hb
          simp_all [Option.isSome] <;> omega
      | cons b bs =>
        have hacts : pumpIter busy env = ⟨true, some env.stdinData, true⟩ := by
          simp [pumpIter, hb, hd]
        have h1 := ih true
        cases busy with
        | false => simp_all [Option.isSome] <;> omega
        | true =>
          have hobs := busyAfterWait_false_of_busy true env.wait rfl hb
          simp_all [Option.isSome] <;> omega

/-- C2: write-busy mutual exclusion in the asynchronous pump.  A write is
issued only when the flag (after completion handling) is false, carries
exactly the polled batch, and sets the flag; while the flag is set the
console input manager is not polled at all; the flag is cleared only by an
observed completion; in the iteration where a completion is observed, an
available batch is written exactly once (the iteration issues `some`
batch, never more); and over any trace the number of writes issued never
exceeds the number of observed completions plus one. -/
theorem pump_write_busy_exclusion (busy : Bool) (env : IterEnv) :
    ((pumpIter busy env).writeIssued ≠ none →
       busyAfterWait busy env.wait = false ∧
       (pumpIter busy env).writeIssued = some env.stdinData ∧
       (pumpIter busy env).busyAfter = true ∧
       (pumpIter busy env).polledStdin = true) ∧
    (busyAfterWait busy env.wait = true →
       (pumpIter busy env).polledStdin = false ∧
       (pumpIter busy env).writeIssued = none ∧
       (pumpIter busy env).busyAfter = true) ∧
    (busy = true → (pumpIter busy env).busyAfter = false →
       observesWriteComplete env.wait = true) ∧
    (busyAfterWait busy env.wait = false → env.stdinData ≠ [] →
       (pumpIter busy env).writeIssued = some env.stdinData) ∧
    (∀ envs, countWrites (pumpRun false envs) ≤ countCompletions envs + 1) := by
  refine ⟨?_, ?_, ?_, ?_, ?_⟩
  · intro hw
    cases hb : busyAfterWait busy env.wait with
    | true => simp_all [pumpIter]
    | false =>
      cases hd : env.stdinData with
      | nil => simp_all [pumpIter]
      | cons b bs => simp_all [pumpIter]
  · intro hb
    simp_all [pumpIter]
  · intro h1 h2
    cases hb : busyAfterWait busy env.wait with
    | true => simp_all [pumpIter]
    | false =>
      exact busyAfterWait_false_of_busy busy env.wait h1 hb
  · intro hb hd
    cases hdd : env.stdinData with
    | nil => exact absurd hdd hd
    | cons b bs => simp_all [pumpIter]
  · intro envs
    have := pumpRun_writes_le envs false
    simpa using this

/-- C2 witness: concrete iterations — a completion clears the flag and
the pending batch is written in the same iteration; under a timeout with
the flag set, the console is not polled and nothing is written. -/
theorem pump_write_busy_exclusion_witness :
    (pumpIter true ⟨.portEvent false 0 true, [65]⟩).writeIssued = some [65] ∧
    ((pumpIter true ⟨.timeout, [65]⟩).polledStdin = false ∧
     (pumpIter true ⟨.timeout, [65]⟩).writeIssued = none ∧
     (pumpIter true ⟨.timeout, [65]⟩).busyAfter = true) ∧
    countWrites (pumpRun false [⟨.timeout, [65]⟩, ⟨.timeout, [66]⟩]) ≤
      countCompletions [(⟨.timeout, [65]⟩ : IterEnv), ⟨.timeout, [66]⟩] + 1 :=
  ⟨(pump_write_busy_exclusion true ⟨.portEvent false 0 true, [65]⟩).2.2.2.1
     (by decide) (by decide),
   (pump_write_busy_exclusion true ⟨.timeout, [65]⟩).2.1 (by decide),
   (pump_write_busy_exclusion false ⟨.timeout, []⟩).2.2.2.2
     [⟨.timeout, [65]⟩, ⟨.timeout, [66]⟩]⟩

theorem parseArgsAux_port_mem (cfg' : Config) :
    ∀ (N : Nat) (cfg : Config) (args : List String), args.length ≤ N →
      parseArgsAux cfg args = .ok cfg' →
      cfg'.port = cfg.port ∨
        (cfg'.port ∈ args ∧ cfg'.port ≠ "" ∧ startsWithDash cfg'.port = false) := by
  intro N
  induction N with
  | zero =>
    intro cfg args hlen h
    have : args = [] := List.length_eq_zero.mp (Nat.le_zero.mp hlen)
    subst this
    simp only [parseArgsAux, ParseOutcome.ok.injEq] at h
    subst h
    exact Or.inl rfl
  | succ N ih =>
    intro cfg args hlen h
    cases args with
    | nil =>
      simp only [parseArgsAux, ParseOutcome.ok.injEq] at h
      subst h
      exact Or.inl rfl
    | cons a rest =>
      have hrlen : rest.length ≤ N := by
        simp only [List.length_cons] at hlen
        omega
      have step : ∀ cfgX : Config, parseArgsAux cfgX rest = .ok cfg' →
          cfgX.port = cfg.port →
          cfg'.port = cfg.port ∨
            (cfg'.port ∈ a :: rest ∧ cfg'.port ≠ "" ∧ startsWithDash cfg'.port = false) := by
        intro cfgX hh hp
        rcases ih cfgX rest hrlen hh with hL | ⟨hm, hne, hd⟩
        · exact Or.inl (hp ▸ hL)
        · exact Or.inr ⟨List.mem_cons_of_mem a hm, hne, hd⟩
      by_cases hempty : a.length < 1
      · rw [parseArgsAux.eq_def] at h
        simp only [hempty, if_true] at h
        exact step _ h rfl
      · by_cases hdash : startsWithDash a = false
        · rw [parseArgsAux.eq_def] at h
          simp only [hempty, hdash, if_true, if_false, ite_true, ite_false] at h
          have hane : a ≠ "" := by
            intro hcon
            subst hcon
            simp at hempty
          rcases ih _ rest hrlen h with hL | ⟨hm, hne, hd⟩
          · simp only at hL
            exact Or.inr ⟨by simp [hL], by simp [hL, hane], by simp [hL, hdash]⟩
          · exact Or.inr ⟨List.mem_cons_of_mem a hm, hne, hd⟩
        · have hdash' : startsWithDash a = true := by
            simpa using hdash
          rw [parseArgsAux_dash cfg a rest hdash'] at h
          generalize strToLower a = s at h
          simp only [dashCase] at h
          by_cases c1 : s = "--local-echo" ∨ s = "-l"
          · rw [if_pos c1] at h
            exact step _ h rfl
          rw [if_neg c1] at h
          by_cases c2 : s = "--system-codepage" ∨ s = "-s"
          · rw [if_pos c2] at h
            exact step _ h rfl
          rw [if_neg c2] at h
          by_cases c3 : s = "--replace-cr" ∨ s = "-r"
          · rw [if_pos c3] at h
            exact step _ h rfl
          rw [if_neg c3] at h
          by_cases c4 : s = "--disable-vt" ∨ s = "-d"
          · rw [if_pos c4] at h
            exact step _ h rfl
          rw [if_neg c4] at h
          by_cases c5 : s = "--debug-input"
          · rw [if_pos c5] at h
            exact step _ h rfl
          rw [if_neg c5] at h
          by_cases c6 : s = "--help" ∨ s = "-h"
          · rw [if_pos c6] at h
            simp at h
          rw [if_neg c6] at h
          by_cases c7 : s = "--write-timeout" ∨ s = "-w"
          · rw [if_pos c7] at h
            cases rest with
            | nil => simp at h
            | cons n rest2 =>
              simp only at h
              rcases ih _ rest2 (by simp only [List.length_cons] at hlen; omega) h with
                hL | ⟨hm, hne, hd⟩
              · exact Or.inl hL
              · exact Or.inr
                  ⟨List.mem_cons_of_mem a (List.mem_cons_of_mem n hm), hne, hd⟩
          rw [if_neg c7] at h
          simp at h

/-- C4: option tokens are matched only through ASCII lowercasing, while
the stored port identifier is a verbatim argument token (nonempty, not
starting with a dash, last one wins). -/
theorem flags_case_insensitive_port_verbatim :
    (∀ (cfg : Config) (t t2 : String) (rest : List String),
       startsWithDash t = true → startsWithDash t2 = true →
       strToLower t = strToLower t2 →
       parseArgsAux cfg (t :: rest) = parseArgsAux cfg (t2 :: rest)) ∧
    (∀ (args : List String) (cfg : Config), parseArgs args = .ok cfg →
       cfg.port ∈ args ∧ cfg.port ≠ "" ∧ startsWithDash cfg.port = false) ∧
    parseArgs ["COM1", "-L"] = .ok { defaultConfig with localEcho := true, port := "COM1" } ∧
    parseArgs ["COM1", "-l"] = .ok { defaultConfig with localEcho := true, port := "COM1" } ∧
    parseArgs ["com1", "COM2"] = .ok { defaultConfig with port := "COM2" } := by
  refine ⟨?_, ?_, by decide, by decide, by decide⟩
  · intro cfg t t2 rest ht ht2 hl
    rw [parseArgsAux_dash cfg t rest ht, parseArgsAux_dash cfg t2 rest ht2, hl]
  · intro args cfg h
    unfold parseArgs at h
    cases hpa : parseArgsAux defaultConfig args with
    | ok cfg0 =>
      rw [hpa] at h
      simp only at h
      by_cases hp : cfg0.port = ""
      · rw [if_pos hp] at h
        simp at h
      · rw [if_neg hp] at h
        simp only [ParseOutcome.ok.injEq] at h
        subst h
        rcases parseArgsAux_port_mem cfg0 args.length defaultConfig args le_rfl hpa with
          hL | hR
        · exact absurd hL hp
        · exact hR
    | exit st msg =>
      rw [hpa] at h
      simp at h

/-- C4 witness: the congruence applied at the tokens -L and -l, and the
verbatim-port property at a concrete parse. -/
theorem flags_case_insensitive_port_verbatim_witness :
    parseArgsAux defaultConfig ["-L"] = parseArgsAux defaultConfig ["-l"] ∧
    ({ defaultConfig with localEcho := true, port := "COM1" } : Config).port ∈ ["COM1", "-l"] ∧
    ({ defaultConfig with localEcho := true, port := "COM1" } : Config).port ≠ "" ∧
    startsWithDash ({ defaultConfig with localEcho := true, port := "COM1" } : Config).port = false :=
  ⟨flags_case_insensitive_port_verbatim.1 defaultConfig "-L" "-l" []
     (by decide) (by decide) (by decide),
   flags_case_insensitive_port_verbatim.2.1 ["COM1", "-l"]
     { defaultConfig with localEcho := true, port := "COM1" } (by decide)⟩
